import Mathlib

/-!
Shallow embedding of `src/server.js`, an OpenAI-to-NVIDIA-NIM chat-completion
proxy. JS values that may be `undefined` are modelled as `Option`; the JS
`||` operator is modelled by explicit truthiness tests (a number is falsy
exactly when it is 0, a string exactly when it is empty). Machine numbers in
the source are ordinary JS numbers used at integer scale, modelled as
`Int`/`Nat`/`ℚ`.
-/

namespace NimProxy

/-- A chat message `{role, content}`; the proxy passes messages through
verbatim. `extra` stands for any further fields an upstream message object
may carry (the reshaping reads only `role` and `content`). -/
structure UpstreamMessage where
  role : String
  content : String
  extra : List (String × String)
deriving DecidableEq, Repr

/-- The inbound request body destructured on line 54 of `server.js`:
`const { model, messages, temperature, max_tokens, stream } = req.body`. -/
structure InboundRequest where
  model : String
  messages : List UpstreamMessage
  temperature : Option ℚ
  max_tokens : Option Int
  stream : Option Bool
deriving DecidableEq, Repr

/-- The `MODEL_MAPPING` object literal (lines 25-33), modelled as an
association list from client-facing model name to NIM model identifier. -/
def MODEL_MAPPING : List (String × String) :=
  [("gpt-3.5-turbo", "meta/llama-3.1-8b-instruct"),
   ("gpt-4", "meta/llama-3.1-70b-instruct"),
   ("gpt-4-turbo", "meta/llama-3.1-70b-instruct"),
   ("gpt-4o", "deepseek-ai/deepseek-v2-chat"),
   ("claude-3-opus", "meta/llama-3.1-405b-instruct"),
   ("claude-3-sonnet", "meta/llama-3.1-70b-instruct"),
   ("gemini-pro", "google/gemini-pro")]

/-- Line 57: `const nimModel = MODEL_MAPPING[model] || 'meta/llama-3.1-8b-instruct'`.
A property lookup that hits returns the stored string; `||` falls through on
a falsy (empty) string, hence the explicit emptiness test. A missing key
yields the default; no model name is ever rejected (the function is total). -/
def nimModel (model : String) : String :=
  match MODEL_MAPPING.lookup model with
  | some v => if v = "" then "meta/llama-3.1-8b-instruct" else v
  | none => "meta/llama-3.1-8b-instruct"

/-- Line 60: `const effective_max_tokens = (max_tokens && max_tokens > 256) ? max_tokens : 4096`.
`max_tokens &&` is the JS truthiness test (0 and `undefined` are falsy). -/
def effective_max_tokens (max_tokens : Option Int) : Int :=
  match max_tokens with
  | some v => if v ≠ 0 ∧ 256 < v then v else 4096
  | none => 4096

/-- JS `x || d` on an optional number: `undefined` and 0 are falsy. -/
def jsNumOr (x : Option ℚ) (d : ℚ) : ℚ :=
  match x with
  | some v => if v = 0 then d else v
  | none => d

/-- JS `x || d` on an optional string: `undefined` and `""` are falsy. -/
def jsStrOr (x : Option String) (d : String) : String :=
  match x with
  | some s => if s = "" then d else s
  | none => d

/-- The outbound request object `nimRequest` built on lines 62-68. -/
structure NimRequest where
  model : String
  messages : List UpstreamMessage
  temperature : ℚ
  max_tokens : Int
  stream : Bool
deriving DecidableEq, Repr

/-- Lines 56-68: resolve the model, normalize `max_tokens` and
`temperature`, default `stream` to `false` (`stream || false`). -/
def mkNimRequest (req : InboundRequest) : NimRequest :=
  { model := nimModel req.model
    messages := req.messages
    temperature := jsNumOr req.temperature (7/10)
    max_tokens := effective_max_tokens req.max_tokens
    stream := req.stream.getD false }

/-- One element of the upstream `choices` array. `extra` stands for any
further per-choice fields the upstream may send (e.g. `logprobs`); the
reshaping on lines 93-100 reads only `index`, `message` and
`finish_reason`. -/
structure UpstreamChoice where
  index : Int
  message : UpstreamMessage
  finish_reason : Option String
  extra : List (String × String)
deriving DecidableEq, Repr

/-- The upstream JSON body `response.data` as read by the non-streaming
branch (lines 88-102). `usage` is passed through verbatim, so its fields are
kept generic as an association list; `model` and `object` are whatever the
upstream sent there (both are ignored by the reshaping). -/
structure UpstreamData where
  id : Option String
  object : Option String
  created : Option Int
  model : Option String
  choices : List UpstreamChoice
  usage : List (String × Int)
deriving DecidableEq, Repr

/-- The reshaped per-choice object of lines 93-100: only `index`,
`message.role`, `message.content` and `finish_reason` are retained. -/
structure OutChoice where
  index : Int
  role : String
  content : String
  finish_reason : Option String
deriving DecidableEq, Repr

/-- The arrow function of `response.data.choices.map(...)` (lines 93-100). -/
def reshapeChoice (c : UpstreamChoice) : OutChoice :=
  { index := c.index
    role := c.message.role
    content := c.message.content
    finish_reason := c.finish_reason }

/-- The non-streaming success body sent by `res.json({...})` on lines
88-102. -/
structure ChatCompletionResponse where
  id : String
  object : String
  created : Int
  model : String
  choices : List OutChoice
  usage : List (String × Int)
deriving DecidableEq, Repr

/-- The generated fallback id of line 89: `` `chatcmpl-${Date.now()}` ``
with `now` the millisecond timestamp. -/
def genId (now : Int) : String := "chatcmpl-" ++ toString now

/-- Lines 88-102, the non-streaming branch: `id` and `created` fall back to
generated values when absent or falsy (`||`), `object` is the constant
string, `model` echoes the caller's requested model, choices are mapped
through `reshapeChoice`, `usage` is passed through. `now` models
`Date.now()` in milliseconds; `Math.floor(Date.now() / 1000)` is `now / 1000`
(timestamps are nonnegative, so truncation agrees with floor). -/
def reshape (model : String) (now : Int) (d : UpstreamData) : ChatCompletionResponse :=
  { id := jsStrOr d.id (genId now)
    object := "chat.completion"
    created := match d.created with
               | some c => if c = 0 then now / 1000 else c
               | none => now / 1000
    model := model
    choices := d.choices.map reshapeChoice
    usage := d.usage }

/-- The streaming success response: the three headers set on lines 81-83 and
the relayed body. `response.data.pipe(res)` (line 85) is modelled
denotationally: Node's `pipe` forwards each upstream chunk to the
destination unmodified and in arrival order, so the relayed body is the
upstream chunk sequence itself. Chunks are byte lists. -/
structure StreamResponse where
  headers : List (String × String)
  body : List (List Nat)
deriving DecidableEq, Repr

/-- Lines 80-85, the streaming branch. -/
def streamBranch (upstream : List (List Nat)) : StreamResponse :=
  { headers := [("Content-Type", "text/event-stream"),
                ("Cache-Control", "no-cache"),
                ("Connection", "keep-alive")]
    body := upstream }

/-- The part of an axios error's `response` that the catch block reads:
`error.response.status` and the optional chain
`error.response.data?.error?.message` (collapsed into one `Option`). -/
structure ErrResponse where
  status : Nat
  errorMessage : Option String
deriving DecidableEq, Repr

/-- A failure caught on lines 105-121: `response` is present exactly when
the upstream answered with a non-2xx HTTP response (axios attaches it);
`message` is the JS error's own `.message` (which may be absent or empty). -/
structure CaughtError where
  response : Option ErrResponse
  message : Option String
deriving DecidableEq, Repr

/-- The error envelope object of lines 115-119. `code` is
`error.response?.status`: `undefined` (here `none`) when there was no
upstream response, in which case `JSON.stringify` omits the field from the
serialized body. -/
structure ErrorEnvelope where
  message : String
  type : String
  code : Option Nat
deriving DecidableEq, Repr

/-- The JSON body sent on failure, `{ error: {...} }` (lines 114-120). -/
structure ErrorBody where
  error : ErrorEnvelope
deriving DecidableEq, Repr

/-- Lines 114-120: the HTTP status `error.response?.status || 500` paired
with the error body. The message chain is
`error.response?.data?.error?.message || error.message || 'An internal server error occurred.'`,
each `||` falling through on `undefined` or the empty string. -/
def handleError (e : CaughtError) : Nat × ErrorBody :=
  ( (match e.response with
     | some r => if r.status = 0 then 500 else r.status
     | none => 500),
    { error :=
      { message := jsStrOr (e.response.bind (fun r => r.errorMessage))
          (jsStrOr e.message "An internal server error occurred.")
        type := "proxy_error"
        code := e.response.map (fun r => r.status) } } )

/-- Startup outcome: either the process exits with a code before binding a
socket, or it binds and listens on a port. -/
inductive StartupOutcome where
  | exited (code : Nat)
  | listening (port : Nat)
deriving DecidableEq, Repr

/-- Lines 15-22 and 124: `process.env.NIM_API_KEY` is a string or
`undefined`; `if (!NIM_API_KEY) { ...; process.exit(1); }` fires on a
missing or empty value (both falsy) before `app.listen(PORT, ...)` is ever
reached; otherwise the server binds the port. -/
def startup (nimApiKey : Option String) (port : Nat) : StartupOutcome :=
  match nimApiKey with
  | none => .exited 1
  | some k => if k = "" then .exited 1 else .listening port

/-- Every value stored in `MODEL_MAPPING` is a non-empty (truthy) string, so
the `||` fallback never fires on a lookup hit. -/
theorem model_mapping_lookup_ne_empty (m v : String)
    (h : MODEL_MAPPING.lookup m = some v) : v ≠ "" := by
  simp only [ MODEL_MAPPING, List.lookup] at h
  repeat' split at h
  all_goals first
  | exact Option.noConfusion h
  | (cases h; decide)

/-- C1: the normalized `max_tokens` sent upstream equals the caller's value
verbatim when a value strictly greater than 256 was supplied, and equals the
fixed floor 4096 when `max_tokens` is absent or at most 256. -/
theorem max_tokens_normalization (req : InboundRequest) :
    (∀ v : Int, req.max_tokens = some v → 256 < v →
      (mkNimRequest req).max_tokens = v) ∧
    (req.max_tokens = none → (mkNimRequest req).max_tokens = 4096) ∧
    (∀ v : Int, req.max_tokens = some v → v ≤ 256 →
      (mkNimRequest req).max_tokens = 4096) := by
  refine ⟨fun v hv h => ?_, fun hn => ?_, fun v hv h => ?_⟩
  · simp only [mkNimRequest, effective_max_tokens, hv]
    rw [if_pos ⟨by omega, h⟩]
  · simp only [mkNimRequest, effective_max_tokens, hn]
  · simp only [mkNimRequest, effective_max_tokens, hv]
    rw [if_neg (by omega)]

/-- Witness for `max_tokens_normalization` at concrete requests. -/
theorem max_tokens_normalization_witness :
    (mkNimRequest ⟨"gpt-4", [], none, some 300, none⟩).max_tokens = 300 ∧
    (mkNimRequest ⟨"gpt-4", [], none, none, none⟩).max_tokens = 4096 ∧
    (mkNimRequest ⟨"gpt-4", [], none, some 10, none⟩).max_tokens = 4096 :=
  ⟨(max_tokens_normalization ⟨"gpt-4", [], none, some 300, none⟩).1 300 rfl
      (by decide),
   (max_tokens_normalization ⟨"gpt-4", [], none, none, none⟩).2.1 rfl,
   (max_tokens_normalization ⟨"gpt-4", [], none, some 10, none⟩).2.2 10 rfl
      (by decide)⟩

/-- C2: the resolved upstream model is the `MODEL_MAPPING` entry when the
requested model is a key of the map, and the fixed default
`meta/llama-3.1-8b-instruct` when it is absent; resolution is total, so an
unknown model name is never rejected. In particular `gpt-4` resolves to
`meta/llama-3.1-70b-instruct`. -/
theorem model_resolution (m : String) :
    (∀ v, MODEL_MAPPING.lookup m = some v → nimModel m = v) ∧
    (MODEL_MAPPING.lookup m = none →
      nimModel m = "meta/llama-3.1-8b-instruct") ∧
    nimModel "gpt-4" = "meta/llama-3.1-70b-instruct" := by
  refine ⟨fun v hv => ?_, fun hn => ?_, by decide⟩
  · simp only [nimModel, hv]
    rw [if_neg (model_mapping_lookup_ne_empty m v hv)]
  · simp only [nimModel, hn]

/-- Witness for `model_resolution`: a mapped name and an unmapped name. -/
theorem model_resolution_witness :
    nimModel "gpt-4" = "meta/llama-3.1-70b-instruct" ∧
    nimModel "unknown-model" = "meta/llama-3.1-8b-instruct" :=
  ⟨(model_resolution "gpt-4").1 "meta/llama-3.1-70b-instruct" (by decide),
   (model_resolution "unknown-model").2.1 (by decide)⟩

/-- C3: the normalized temperature sent upstream equals 0.7 when the
caller's temperature is absent or falsy (including 0), and equals the
caller's value verbatim otherwise. -/
theorem temperature_normalization (req : InboundRequest) :
    (req.temperature = none → (mkNimRequest req).temperature = 7/10) ∧
    (req.temperature = some 0 → (mkNimRequest req).temperature = 7/10) ∧
    (∀ x : ℚ, req.temperature = some x → x ≠ 0 →
      (mkNimRequest req).temperature = x) := by
  refine ⟨fun hn => ?_, fun h0 => ?_, fun x hx h => ?_⟩
  · simp only [mkNimRequest, jsNumOr, hn]
  · simp [mkNimRequest, jsNumOr, h0]
  · simp only [mkNimRequest, jsNumOr, hx]
    rw [if_neg h]

/-- Witness for `temperature_normalization` at concrete requests. -/
theorem temperature_normalization_witness :
    (mkNimRequest ⟨"gpt-4", [], none, none, none⟩).temperature = 7/10 ∧
    (mkNimRequest ⟨"gpt-4", [], some 0, none, none⟩).temperature = 7/10 ∧
    (mkNimRequest ⟨"gpt-4", [], some 2, none, none⟩).temperature = 2 :=
  ⟨(temperature_normalization ⟨"gpt-4", [], none, none, none⟩).1 rfl,
   (temperature_normalization ⟨"gpt-4", [], some 0, none, none⟩).2.1 rfl,
   (temperature_normalization ⟨"gpt-4", [], some 2, none, none⟩).2.2 2 rfl
      (by norm_num)⟩

/-- C4: the non-streaming response's `model` field always echoes the
caller's originally requested model string, for every upstream body and
timestamp; for a remapped name such as `gpt-4` it therefore differs from the
resolved upstream identifier. -/
theorem response_model_echo (model : String) (now : Int) (d : UpstreamData) :
    (reshape model now d).model = model ∧
    (reshape "gpt-4" now d).model ≠ nimModel "gpt-4" :=
  ⟨rfl, by show ("gpt-4" : String) ≠ nimModel "gpt-4"; decide⟩

/-- C5 counterexample: an upstream error body whose `error.message` is
present but empty. The claim says the envelope message equals the upstream's
own message whenever it is present, hence should be `""` here, but the `||`
chain falls through to the underlying failure's message instead. -/
theorem error_message_present_not_used :
    (⟨some ⟨400, some ""⟩, some "boom"⟩ : CaughtError).response.bind
      (fun r => r.errorMessage) = some "" ∧
    (handleError ⟨some ⟨400, some ""⟩, some "boom"⟩).2.error.message = "boom" ∧
    "boom" ≠ "" :=
  ⟨rfl, rfl, by decide⟩

/-- C5 (amended): every caught failure yields one envelope with fixed type
`proxy_error`; its message is the upstream's own error message when present
and non-empty, else the underlying failure's message when present and
non-empty, else the generic fallback; the HTTP status is the upstream's
(positive) status when a response is present, else 500. -/
theorem error_envelope_shape (e : CaughtError) :
    (handleError e).2.error.type = "proxy_error" ∧
    (∀ m, e.response.bind (fun r => r.errorMessage) = some m → m ≠ "" →
      (handleError e).2.error.message = m) ∧
    ((e.response.bind (fun r => r.errorMessage) = none ∨
      e.response.bind (fun r => r.errorMessage) = some "") →
      ∀ m, e.message = some m → m ≠ "" →
        (handleError e).2.error.message = m) ∧
    ((e.response.bind (fun r => r.errorMessage) = none ∨
      e.response.bind (fun r => r.errorMessage) = some "") →
      (e.message = none ∨ e.message = some "") →
      (handleError e).2.error.message = "An internal server error occurred.") ∧
    (∀ r, e.response = some r → 0 < r.status → (handleError e).1 = r.status) ∧
    (e.response = none → (handleError e).1 = 500) := by
  refine ⟨rfl, fun m hm h => ?_, fun hup m hm h => ?_, fun hup hmsg => ?_,
    fun r hr h => ?_, fun hn => ?_⟩
  · simp only [handleError, jsStrOr, hm]
    rw [if_neg h]
  · rcases hup with hup | hup <;>
      simp [handleError, jsStrOr, hup, hm, h]
  · rcases hup with hup | hup <;> rcases hmsg with hmsg | hmsg <;>
      simp [handleError, jsStrOr, hup, hmsg]
  · simp only [handleError, hr]
    rw [if_neg (by omega)]
  · simp only [handleError, hn]

/-- Witness for `error_envelope_shape`: a structured upstream 404 and a
transport-level failure with no upstream response. -/
theorem error_envelope_shape_witness :
    (handleError ⟨some ⟨404, some "Not Found"⟩, some "request failed"⟩).2.error.message
      = "Not Found" ∧
    (handleError ⟨some ⟨404, some "Not Found"⟩, some "request failed"⟩).1 = 404 ∧
    (handleError ⟨none, some "socket hang up"⟩).2.error.message
      = "socket hang up" ∧
    (handleError ⟨none, some "socket hang up"⟩).1 = 500 :=
  ⟨(error_envelope_shape ⟨some ⟨404, some "Not Found"⟩, some "request failed"⟩).2.1
      "Not Found" rfl (by decide),
   (error_envelope_shape ⟨some ⟨404, some "Not Found"⟩, some "request failed"⟩).2.2.2.2.1
      ⟨404, some "Not Found"⟩ rfl (by decide),
   (error_envelope_shape ⟨none, some "socket hang up"⟩).2.2.1 (Or.inl rfl)
      "socket hang up" rfl (by decide),
   (error_envelope_shape ⟨none, some "socket hang up"⟩).2.2.2.2.2 rfl⟩

/-- C6: the stream branch declares event-stream content, no caching and a
keep-alive connection, and the relayed body is exactly the upstream chunk
sequence, unmodified and in order. -/
theorem stream_relay_passthrough (chunks : List (List Nat)) :
    (streamBranch chunks).headers =
      [("Content-Type", "text/event-stream"), ("Cache-Control", "no-cache"),
       ("Connection", "keep-alive")] ∧
    (streamBranch chunks).body = chunks :=
  ⟨rfl, rfl⟩

/-- C7: with the credential absent from the environment, startup exits with
the non-zero code 1 and never reaches the listening state, whatever the
configured port. -/
theorem missing_credential_exits (port : Nat) :
    (∃ c, c ≠ 0 ∧ startup none port = .exited c) ∧
    ∀ p, startup none port ≠ .listening p :=
  ⟨⟨1, by decide, rfl⟩, fun _ h => StartupOutcome.noConfusion h⟩

/-- C8: the envelope's `code` field is present exactly when the failure
carried an upstream response, in which case it equals that response's
status; with no upstream response the `code` field is absent and the HTTP
status is 500. -/
theorem error_code_field (e : CaughtError) :
    (e.response = none →
      (handleError e).2.error.code = none ∧ (handleError e).1 = 500) ∧
    (∀ r, e.response = some r → (handleError e).2.error.code = some r.status) := by
  refine ⟨fun hn => ?_, fun r hr => ?_⟩
  · simp [handleError, hn]
  · simp [handleError, hr]

/-- Witness for `error_code_field`: a transport failure and an upstream 502. -/
theorem error_code_field_witness :
    (handleError ⟨none, some "timeout"⟩).2.error.code = none ∧
    (handleError ⟨none, some "timeout"⟩).1 = 500 ∧
    (handleError ⟨some ⟨502, none⟩, none⟩).2.error.code = some 502 :=
  ⟨((error_code_field ⟨none, some "timeout"⟩).1 rfl).1,
   ((error_code_field ⟨none, some "timeout"⟩).1 rfl).2,
   (error_code_field ⟨some ⟨502, none⟩, none⟩).2 ⟨502, none⟩ rfl⟩

/-- C9: every non-streaming success body has its `object` field fixed to
`chat.completion`, for every upstream body (whatever its own `object` field
held) and every timestamp. -/
theorem object_field_constant (model : String) (now : Int) (d : UpstreamData) :
    (reshape model now d).object = "chat.completion" :=
  rfl

/-- C10: the non-streaming reshape maps each upstream choice through
`reshapeChoice`, which reads only `index`, `message.role`, `message.content`
and `finish_reason` — any other per-choice or per-message field is dropped
(the output is invariant under changing them) — while `usage` is passed
through verbatim. -/
theorem choices_projection (model : String) (now : Int) (d : UpstreamData) :
    (reshape model now d).choices = d.choices.map reshapeChoice ∧
    (reshape model now d).usage = d.usage ∧
    (∀ (c : UpstreamChoice) (e me : List (String × String)),
      reshapeChoice
        { c with extra := e, message := { c.message with extra := me } } =
        reshapeChoice c) :=
  ⟨rfl, rfl, fun _ _ _ => rfl⟩

end NimProxy
